import Mathlib

/-!
Verification of the Siigo invoicing client (`siigo_client.py`) and the
parking-invoice submission helper (`parking_invoice.py`).

Shallow embedding conventions:
* `datetime.now()` is passed in explicitly as an `Int` number of seconds;
  `timedelta(hours=1)` is 3600 and `timedelta(hours=24)` is 86400.
* Python `None`-or-string fields are `Option String`; Python truthiness of a
  string field (`not self._access_token`) is `pyFalsyStr`.
* The network is an oracle: each remote call receives its outcome (an HTTP
  response with status / text / parsed JSON, or a transport-level failure)
  as an explicit argument.  `response.raise_for_status()` raises exactly
  when `400 ≤ status`.
* Python exceptions become `Except PyError`; client-state mutation becomes
  explicit state passing (`ClientState` in, `ClientState` out).
-/

/-- JSON values, used for request bodies, query params and parsed responses. -/
inductive Json where
  | null : Json
  | bool : Bool → Json
  | int : Int → Json
  | str : String → Json
  | arr : List Json → Json
  | obj : List (String × Json) → Json

/-- Association-list lookup on the fields of a JSON object. -/
def lookupPairs : List (String × Json) → String → Option Json
  | [], _ => none
  | (k, v) :: rest, key => if k = key then some v else lookupPairs rest key

/-- `j[k]` for a JSON object `j`; `none` when `j` is not an object or lacks `k`. -/
def jsonLookup (j : Json) (k : String) : Option Json :=
  match j with
  | Json.obj fs => lookupPairs fs k
  | _ => none

/-- Python exceptions that the embedded code can raise.
`valueError` models `ValueError`, `authError` models `SiigoAuthError`,
`apiError` models `SiigoAPIError` (message, `status_code`, `response`),
and `requestsError` models an exception of the underlying `requests`
library escaping untranslated. -/
inductive PyError where
  | valueError : String → PyError
  | authError : String → PyError
  | apiError : String → Option Nat → Option Json → PyError
  | requestsError : String → PyError

/-- Constructor arguments of `SiigoClient.__init__`. -/
structure Credentials where
  username : String
  access_key : String
  application_name : String

/-- The mutable token cache of a `SiigoClient` instance:
`_access_token` and `_token_expiry` (expiry in seconds). -/
structure ClientState where
  access_token : Option String
  token_expiry : Option Int

/-- The state of a freshly constructed client: both fields are `None`. -/
def freshClient : ClientState := { access_token := none, token_expiry := none }

/-- Python truthiness test `not s` for an optional string:
true exactly when the value is `None` or the empty string. -/
def pyFalsyStr : Option String → Bool
  | none => true
  | some s => s = ""

/-- Python string interpolation of an optional string: `None` prints as "None". -/
def pyStrOpt : Option String → String
  | none => "None"
  | some s => s

/-- `SiigoClient._needs_token_refresh`: true when the cached token is falsy,
the expiry is `None`, or `now >= expiry - 1 hour`. -/
def needs_token_refresh (st : ClientState) (now : Int) : Bool :=
  if pyFalsyStr st.access_token then true
  else match st.token_expiry with
    | none => true
    | some exp => decide (exp - 3600 ≤ now)

/-- Outcome of the `requests.post` call made by `SiigoClient._authenticate`:
either an HTTP response (status, `response.text`, and the result of
`response.json().get("access_token")`), or a transport-level failure. -/
inductive AuthOutcome where
  | response : Nat → String → Option String → AuthOutcome
  | transportError : String → AuthOutcome

/-- `SiigoClient._authenticate`: on a success status caches the token from the
body (possibly `None`) with expiry `now + 24h`; on an HTTP error status raises
`SiigoAuthError` with the status and response text; on a transport error raises
`SiigoAuthError` with the connection message.  Errors leave the cache untouched
(the function only returns a new state on success). -/
def authenticate (now : Int) (o : AuthOutcome) : Except PyError ClientState :=
  match o with
  | AuthOutcome.response status text tok =>
      if 400 ≤ status then
        Except.error (PyError.authError
          ("Authentication failed: " ++ toString status ++ " - " ++ text))
      else
        Except.ok { access_token := tok, token_expiry := some (now + 86400) }
  | AuthOutcome.transportError msg =>
      Except.error (PyError.authError ("Connection error: " ++ msg))

/-- The header dictionary returned by `SiigoClient._get_auth_headers`. -/
structure Headers where
  authorization : String
  contentType : String
  partnerId : String

/-- The headers built from the current cache (note `f"Bearer {token}"` renders
a `None` token as the literal string `Bearer None`). -/
def mkHeaders (c : Credentials) (st : ClientState) : Headers :=
  { authorization := "Bearer " ++ pyStrOpt st.access_token
    contentType := "application/json"
    partnerId := c.application_name }

/-- `SiigoClient._get_auth_headers`: refreshes the token when
`_needs_token_refresh`, then returns the headers.  The result carries the
headers (or the propagated exception), the client state after the call, and
the number of authentication calls issued (0 or 1). -/
def get_auth_headers (c : Credentials) (st : ClientState) (now : Int)
    (o : AuthOutcome) : Except PyError Headers × ClientState × Nat :=
  if needs_token_refresh st now then
    match authenticate now o with
    | Except.error e => (Except.error e, st, 1)
    | Except.ok st' => (Except.ok (mkHeaders c st'), st', 1)
  else
    (Except.ok (mkHeaders c st), st, 0)

/-- Outcome of the `requests.request` call made by `SiigoClient._make_request`:
an HTTP response (status, `response.text`, whether `response.content` is
non-empty, and the result of parsing the body as JSON — `none` when the body
does not parse), or a transport-level failure. -/
inductive ReqOutcome where
  | response : Nat → String → Bool → Option Json → ReqOutcome
  | transportError : String → ReqOutcome

/-- `SiigoClient._make_request`: obtains headers (refreshing the token as
needed), performs the call, and translates failures.  On an HTTP error status
it parses the error body best-effort (a parse failure leaves `{}`) and raises
`SiigoAPIError` with the status code and that body; on a transport error it
raises `SiigoAPIError` with no status code.  On success it returns the parsed
body, or `{}` when the response has no content.  (A success response whose
non-empty body fails to parse raises the JSON decode error of the `requests`
library, a `RequestException` subclass, so it is caught by the same handler
as a transport error.)  The returned state is the cache after the call. -/
def make_request (c : Credentials) (st : ClientState) (now : Int)
    (ao : AuthOutcome) (ro : ReqOutcome) : Except PyError Json × ClientState :=
  match get_auth_headers c st now ao with
  | (Except.error e, st1, _) => (Except.error e, st1)
  | (Except.ok _, st1, _) =>
    match ro with
    | ReqOutcome.response status text hasContent body =>
        if 400 ≤ status then
          (Except.error (PyError.apiError
            ("API request failed: " ++ toString status ++ " - " ++ text)
            (some status)
            (some (body.getD (Json.obj [])))), st1)
        else
          if hasContent then
            match body with
            | some j => (Except.ok j, st1)
            | none =>
                (Except.error (PyError.apiError
                  ("Connection error: JSONDecodeError") none none), st1)
          else
            (Except.ok (Json.obj []), st1)
    | ReqOutcome.transportError msg =>
        (Except.error (PyError.apiError ("Connection error: " ++ msg) none none), st1)

/-- Outcome of the `requests.get` call made by `SiigoClient.get_invoice_pdf`:
an HTTP response (status, `response.text`, `response.content` as an opaque
string of bytes), or a transport-level failure. -/
inductive PdfOutcome where
  | response : Nat → String → String → PdfOutcome
  | transportError : String → PdfOutcome

/-- `SiigoClient.get_invoice_pdf`: obtains headers, performs the call, and on
an HTTP error status raises `SiigoAPIError` with the status code (and no
response body).  A transport-level failure is NOT caught (only
`HTTPError` is): the underlying `requests` exception propagates untranslated,
modelled as `PyError.requestsError`. -/
def get_invoice_pdf (c : Credentials) (st : ClientState) (now : Int)
    (ao : AuthOutcome) (ro : PdfOutcome) : Except PyError String × ClientState :=
  match get_auth_headers c st now ao with
  | (Except.error e, st1, _) => (Except.error e, st1)
  | (Except.ok _, st1, _) =>
    match ro with
    | PdfOutcome.response status _text content =>
        if 400 ≤ status then
          (Except.error (PyError.apiError
            ("Failed to get invoice PDF: " ++ toString status)
            (some status) none), st1)
        else
          (Except.ok content, st1)
    | PdfOutcome.transportError msg =>
        (Except.error (PyError.requestsError msg), st1)

/-- A request handed to the dispatcher: method, endpoint, optional JSON body
(`data`) and optional query params. -/
structure Request where
  method : String
  endpoint : String
  data : Option Json
  params : Option Json

/-- Query-param entry for a Python `Optional[str]` filter guarded by
`if value:` — included exactly when the value is a non-empty string. -/
def optStrParam (k : String) (v : Option String) : List (String × Json) :=
  match v with
  | none => []
  | some s => if s = "" then [] else [(k, Json.str s)]

/-- Query-param entry for a Python `Optional[int]` filter guarded by
`if value:` — included exactly when the value is present and non-zero. -/
def optIntParam (k : String) (v : Option Int) : List (String × Json) :=
  match v with
  | none => []
  | some n => if n = 0 then [] else [(k, Json.int n)]

/-- The request built by `SiigoClient.get_invoices`: note
`params["page_size"] = min(page_size, 100)`. -/
def get_invoices_request (page page_size : Int)
    (created_start created_end date_start date_end updated_start updated_end
     customer_identification : Option String)
    (customer_branch_office : Option Int) (name : Option String) : Request :=
  { method := "GET", endpoint := "/v1/invoices", data := none
    params := some (Json.obj (
      [("page", Json.int page), ("page_size", Json.int (min page_size 100))]
      ++ optStrParam "created_start" created_start
      ++ optStrParam "created_end" created_end
      ++ optStrParam "date_start" date_start
      ++ optStrParam "date_end" date_end
      ++ optStrParam "updated_start" updated_start
      ++ optStrParam "updated_end" updated_end
      ++ optStrParam "customer_identification" customer_identification
      ++ optIntParam "customer_branch_office" customer_branch_office
      ++ optStrParam "name" name)) }

/-- The request built by `SiigoClient.get_invoice`. -/
def get_invoice_request (invoice_id : String) : Request :=
  { method := "GET", endpoint := "/v1/invoices/" ++ invoice_id
    data := none, params := none }

/-- The request built by `SiigoClient.create_invoice`. -/
def create_invoice_request (invoice_data : Json) : Request :=
  { method := "POST", endpoint := "/v1/invoices"
    data := some invoice_data, params := none }

/-- The request built by `SiigoClient.update_invoice`. -/
def update_invoice_request (invoice_id : String) (invoice_data : Json) : Request :=
  { method := "PUT", endpoint := "/v1/invoices/" ++ invoice_id
    data := some invoice_data, params := none }

/-- The request built by `SiigoClient.delete_invoice`. -/
def delete_invoice_request (invoice_id : String) : Request :=
  { method := "DELETE", endpoint := "/v1/invoices/" ++ invoice_id
    data := none, params := none }

/-- The request built by `SiigoClient.send_invoice_email`: body has
`mail_to`, plus `copy_to` exactly when the optional CC list is truthy
(present and non-empty). -/
def send_invoice_email_request (invoice_id : String) (email : String)
    (copy_to : Option (List String)) : Request :=
  { method := "POST", endpoint := "/v1/invoices/" ++ invoice_id ++ "/mail"
    data := some (Json.obj (
      [("mail_to", Json.str email)]
      ++ (match copy_to with
          | none => []
          | some l => if l = [] then [] else [("copy_to", Json.arr (l.map Json.str))])))
    params := none }

/-- The request built by `SiigoClient.get_document_types`. -/
def get_document_types_request : Request :=
  { method := "GET", endpoint := "/v1/document-types", data := none
    params := some (Json.obj [("type", Json.str "FV")]) }

/-- The request built by `SiigoClient.get_payment_types`. -/
def get_payment_types_request (document_type : String) : Request :=
  { method := "GET", endpoint := "/v1/payment-types", data := none
    params := some (Json.obj [("document_type", Json.str document_type)]) }

/-- The request built by `SiigoClient.get_taxes`. -/
def get_taxes_request : Request :=
  { method := "GET", endpoint := "/v1/taxes", data := none, params := none }

/-- The request built by `SiigoClient.get_sellers`. -/
def get_sellers_request : Request :=
  { method := "GET", endpoint := "/v1/users", data := none
    params := some (Json.obj [("role", Json.str "seller")]) }

/-- The request built by `SiigoClient.get_products`. -/
def get_products_request (page page_size : Int) : Request :=
  { method := "GET", endpoint := "/v1/products", data := none
    params := some (Json.obj
      [("page", Json.int page), ("page_size", Json.int page_size)]) }

/-- The request built by `SiigoClient.get_customers`: the `identification`
filter is included exactly when truthy. -/
def get_customers_request (page page_size : Int)
    (identification : Option String) : Request :=
  { method := "GET", endpoint := "/v1/customers", data := none
    params := some (Json.obj (
      [("page", Json.int page), ("page_size", Json.int page_size)]
      ++ optStrParam "identification" identification)) }

/-- The request built by `SiigoClient.get_warehouses`. -/
def get_warehouses_request : Request :=
  { method := "GET", endpoint := "/v1/warehouses", data := none, params := none }

/-- The request built by `SiigoClient.get_cost_centers`. -/
def get_cost_centers_request : Request :=
  { method := "GET", endpoint := "/v1/cost-centers", data := none, params := none }

/-- A typed operation applied to a dispatcher: it forwards its request and
returns whatever the dispatcher returns, untouched. -/
def runOp (dispatch : Request → Except PyError Json) (r : Request) :
    Except PyError Json :=
  dispatch r

/-- Looks a key up in the query params of a request. -/
def requestParam (r : Request) (k : String) : Option Json :=
  match r.params with
  | some j => jsonLookup j k
  | none => none

/-- Python `str.strip()`: removes whitespace from both ends. -/
def pyStrip (s : String) : String :=
  String.mk (((s.toList.dropWhile Char.isWhitespace).reverse.dropWhile
    Char.isWhitespace).reverse)

/-- Python `str.upper()`: uppercases every character. -/
def pyUpper (s : String) : String := String.mk (s.toList.map Char.toUpper)

/-- The global `SIIGO_CONFIG` dict of `parking_invoice.py`: the four
reference IDs, each initially `None`. -/
structure SiigoConfig where
  document_type_id : Option Int
  seller_id : Option Int
  payment_type_id : Option Int
  tax_id : Option Int

/-- Python truthiness test `not v` for an optional int: true exactly when
the value is `None` or `0`. -/
def pyFalsyInt : Option Int → Bool
  | none => true
  | some n => n = 0

/-- Python value rendering of an optional int into JSON (`None` → null). -/
def optIntJson : Option Int → Json
  | none => Json.null
  | some n => Json.int n

/-- The single-quote character, for Python list reprs. -/
def pyQuote : String := String.singleton (Char.ofNat 39)

/-- Python `str(list_of_strings)`, e.g. a two-element list prints as
`[` + quote + first + quote + `, ` + quote + second + quote + `]`. -/
def pyListRepr (xs : List String) : String :=
  "[" ++ String.intercalate ", " (xs.map (fun s => pyQuote ++ s ++ pyQuote)) ++ "]"

/-- `_validar_config`: the required keys whose configured value is falsy,
in the order `document_type_id`, `seller_id`, `payment_type_id`
(`tax_id` is not checked). -/
def missingConfigKeys (cfg : SiigoConfig) : List String :=
  (if pyFalsyInt cfg.document_type_id then ["document_type_id"] else [])
  ++ (if pyFalsyInt cfg.seller_id then ["seller_id"] else [])
  ++ (if pyFalsyInt cfg.payment_type_id then ["payment_type_id"] else [])

/-- The `ValueError` message raised by `_validar_config`. -/
def configErrorMsg (missing : List String) : String :=
  "Faltan IDs de configuración: " ++ pyListRepr missing
  ++ ". Ejecuta get_siigo_ids() para obtenerlos."

/-- `_validar_config`: raises a `ValueError` listing the missing required
keys when any of them is falsy. -/
def validarConfig (cfg : SiigoConfig) : Except PyError Unit :=
  if missingConfigKeys cfg = [] then Except.ok ()
  else Except.error (PyError.valueError (configErrorMsg (missingConfigKeys cfg)))

/-- The `invoice_data` payload built by `emit_electronic_invoice` from the
already-normalized inputs (`today` is `datetime.now().strftime("%Y-%m-%d")`,
passed in explicitly). -/
def buildInvoiceData (cfg : SiigoConfig) (today placa id_number full_name : String)
    (total_amount_cop : Int) : Json :=
  Json.obj [
    ("document", Json.obj [("id", optIntJson cfg.document_type_id)]),
    ("date", Json.str today),
    ("customer", Json.obj [
      ("identification", Json.str id_number),
      ("branch_office", Json.int 0)]),
    ("seller", optIntJson cfg.seller_id),
    ("items", Json.arr [Json.obj [
      ("code", Json.str "PARQUEADERO"),
      ("description", Json.str "Servicio de Parqueadero"),
      ("quantity", Json.int 1),
      ("price", Json.int total_amount_cop),
      ("discount", Json.int 0),
      ("taxes", if pyFalsyInt cfg.tax_id then Json.arr []
                else Json.arr [Json.obj [("id", optIntJson cfg.tax_id)]])]]),
    ("payments", Json.arr [Json.obj [
      ("id", optIntJson cfg.payment_type_id),
      ("value", Json.int total_amount_cop),
      ("due_date", Json.str today)]]),
    ("observations", Json.str ("Placa: " ++ placa ++ " - Cliente: " ++ full_name))]

/-- A network call made by `emit_electronic_invoice` through its client. -/
inductive NetCall where
  | createCall : Json → NetCall
  | mailCall : Json → String → NetCall

/-- `emit_electronic_invoice`.  The client is abstracted by two oracles:
`create` (the outcome of `client.create_invoice`) and `mail` (the outcome of
`client.send_invoice_email`).  The result pairs the returned value or raised
exception with the list of network calls performed, in order.

Faithful details: the four string inputs are stripped (plate also
uppercased); empty normalized fields and a non-positive amount raise
`ValueError` before any network call; `_validar_config` runs next; the email
step runs inside `try: ... except Exception: pass`, so `result["id"]`
failing (result lacks the key or is not a dict) skips the mail call and any
mail failure is discarded. -/
def emit_electronic_invoice (cfg : SiigoConfig) (today : String)
    (create : Json → Except PyError Json)
    (mail : Json → String → Except PyError Json)
    (placa id_number full_name email : String) (total_amount_cop : Int) :
    Except PyError Json × List NetCall :=
  let placa := (pyUpper (pyStrip placa))
  let id_number := (pyStrip id_number)
  let full_name := (pyStrip full_name)
  let email := (pyStrip email)
  if placa = "" then
    (Except.error (PyError.valueError "Factura electrónica requiere placa del vehículo"), [])
  else if id_number = "" then
    (Except.error (PyError.valueError "Factura electrónica requiere NIT o cédula"), [])
  else if full_name = "" then
    (Except.error (PyError.valueError "Factura electrónica requiere nombre o razón social"), [])
  else if email = "" then
    (Except.error (PyError.valueError "Factura electrónica requiere correo electrónico"), [])
  else if total_amount_cop ≤ 0 then
    (Except.error (PyError.valueError "Monto total inválido para facturación"), [])
  else
    match validarConfig cfg with
    | Except.error e => (Except.error e, [])
    | Except.ok _ =>
      let invoice_data := buildInvoiceData cfg today placa id_number full_name total_amount_cop
      match create invoice_data with
      | Except.error e => (Except.error e, [NetCall.createCall invoice_data])
      | Except.ok result =>
        match jsonLookup result "id" with
        | some idv =>
            let _ignored := mail idv email
            (Except.ok result, [NetCall.createCall invoice_data, NetCall.mailCall idv email])
        | none =>
            (Except.ok result, [NetCall.createCall invoice_data])

/-- Whether a headers result is a success (no exception). -/
def isOkResult : Except PyError Headers → Bool
  | Except.ok _ => true
  | Except.error _ => false

/-- Example credentials used by concrete witnesses. -/
def credEx : Credentials :=
  { username := "u", access_key := "k", application_name := "MyApp" }

/-- Example configuration with all four reference IDs set, for witnesses. -/
def cfgEx : SiigoConfig :=
  { document_type_id := some 24, seller_id := some 629
    payment_type_id := some 5636, tax_id := some 13156 }

/-- Example configuration with `seller_id` unset and `payment_type_id`
falsy, for witnesses. -/
def cfgMissing : SiigoConfig :=
  { document_type_id := some 24, seller_id := none
    payment_type_id := some 0, tax_id := none }

/-- A create oracle that succeeds with a record carrying an `id`. -/
def createOk : Json → Except PyError Json :=
  fun _ => Except.ok (Json.obj [("id", Json.str "inv-1")])

/-- A mail oracle that succeeds. -/
def mailOk : Json → String → Except PyError Json :=
  fun _ _ => Except.ok (Json.obj [])

/-- A mail oracle that always raises. -/
def mailFail : Json → String → Except PyError Json :=
  fun _ _ => Except.error (PyError.apiError "API request failed: 500 - mail" (some 500) none)

/-- Whether an error is one of the two top-level kinds of the client:
`SiigoAuthError` or `SiigoAPIError`. -/
def isTwoKinds : PyError → Bool
  | PyError.authError _ => true
  | PyError.apiError _ _ _ => true
  | _ => false

/-- Claim C1: a headers call issues an authentication call if and only if the
cache is stale — no token cached (falsy token or missing expiry) or the time
is at or past expiry minus one hour; a successful authentication caches the
returned token with expiry exactly 24 hours after refresh time; hence a first
headers call on a fresh client issues exactly one auth call, any further call
strictly within the freshness window issues zero, and a call at or past
expiry minus one hour issues exactly one more. -/
theorem token_lifecycle (c : Credentials) :
    (∀ st now o, (get_auth_headers c st now o).2.2 =
        (if needs_token_refresh st now then 1 else 0)) ∧
    (∀ st now exp, st.token_expiry = some exp →
        needs_token_refresh st now =
          (pyFalsyStr st.access_token || decide (exp - 3600 ≤ now))) ∧
    (∀ st now, st.access_token = none → needs_token_refresh st now = true) ∧
    (∀ now status text tok, status < 400 →
        authenticate now (AuthOutcome.response status text tok) =
          Except.ok { access_token := tok, token_expiry := some (now + 86400) }) ∧
    (∀ now s, s ≠ "" →
        get_auth_headers c freshClient now (AuthOutcome.response 200 "" (some s)) =
          (Except.ok (mkHeaders c
              { access_token := some s, token_expiry := some (now + 86400) }),
           { access_token := some s, token_expiry := some (now + 86400) }, 1) ∧
        (∀ now2 o2, now2 < now + 86400 - 3600 →
            (get_auth_headers c
              { access_token := some s, token_expiry := some (now + 86400) } now2 o2).2.2 = 0) ∧
        (∀ now3 o3, now + 86400 - 3600 ≤ now3 →
            (get_auth_headers c
              { access_token := some s, token_expiry := some (now + 86400) } now3 o3).2.2 = 1)) := by
  refine ⟨?_, ?_, ?_, ?_, ?_⟩
  · intro st now o
    by_cases h : needs_token_refresh st now
    · cases ha : authenticate now o <;> simp [get_auth_headers, h, ha]
    · simp [get_auth_headers, h]
  · intro st now exp h
    cases hp : pyFalsyStr st.access_token <;> simp [needs_token_refresh, h, hp]
  · intro st now h
    simp [needs_token_refresh, pyFalsyStr, h]
  · intro now status text tok h
    simp only [authenticate]
    rw [if_neg (by omega)]
  · intro now s hs
    have hfresh : needs_token_refresh freshClient now = true := by
      simp [needs_token_refresh, freshClient, pyFalsyStr]
    have hauth : authenticate now (AuthOutcome.response 200 "" (some s)) =
        Except.ok { access_token := some s, token_expiry := some (now + 86400) } := by
      simp only [authenticate]
      rw [if_neg (by decide)]
    refine ⟨by simp [get_auth_headers, hfresh, hauth], ?_, ?_⟩
    · intro now2 o2 h2
      have hfalse : needs_token_refresh
          { access_token := some s, token_expiry := some (now + 86400) } now2 = false := by
        simp [needs_token_refresh, pyFalsyStr, hs]
        omega
      simp [get_auth_headers, hfalse]
    · intro now3 o3 h3
      have htrue : needs_token_refresh
          { access_token := some s, token_expiry := some (now + 86400) } now3 = true := by
        simp [needs_token_refresh, pyFalsyStr, hs]
        omega
      cases ha : authenticate now3 o3 <;> simp [get_auth_headers, htrue, ha]

/-- Concrete run of the C1 lifecycle: fresh client at time 0 issues one auth
call and caches expiry 86400; a call at time 3600 issues none; a call at time
82800 (= expiry - 1h) issues one. -/
theorem token_lifecycle_witness :
    get_auth_headers credEx freshClient 0 (AuthOutcome.response 200 "" (some "tok")) =
      (Except.ok (mkHeaders credEx
          { access_token := some "tok", token_expiry := some (0 + 86400) }),
       { access_token := some "tok", token_expiry := some (0 + 86400) }, 1) ∧
    (get_auth_headers credEx
        { access_token := some "tok", token_expiry := some (0 + 86400) } 3600
        (AuthOutcome.response 200 "" (some "tok"))).2.2 = 0 ∧
    (get_auth_headers credEx
        { access_token := some "tok", token_expiry := some (0 + 86400) } 82800
        (AuthOutcome.response 200 "" (some "tok"))).2.2 = 1 := by
  have h := (token_lifecycle credEx).2.2.2.2 0 "tok" (by decide)
  exact ⟨h.1, h.2.1 3600 (AuthOutcome.response 200 "" (some "tok")) (by decide),
         h.2.2 82800 (AuthOutcome.response 200 "" (some "tok")) (by decide)⟩

/-- Claim C2: for every dispatched request whose headers step succeeded, an
HTTP error status makes the dispatcher raise `SiigoAPIError` carrying the
status code and the best-effort-parsed error body (a parse failure is
silently absorbed, leaving the empty object), and a transport-level failure
with no response makes it raise `SiigoAPIError` with no status code. -/
theorem dispatcher_error_translation (c : Credentials) (st : ClientState)
    (now : Int) (ao : AuthOutcome)
    (hok : isOkResult (get_auth_headers c st now ao).1 = true) :
    (∀ status text hasContent body, 400 ≤ status →
        (make_request c st now ao (ReqOutcome.response status text hasContent body)).1 =
          Except.error (PyError.apiError
            ("API request failed: " ++ toString status ++ " - " ++ text)
            (some status) (some (body.getD (Json.obj []))))) ∧
    (∀ status text hasContent, 400 ≤ status →
        (make_request c st now ao (ReqOutcome.response status text hasContent none)).1 =
          Except.error (PyError.apiError
            ("API request failed: " ++ toString status ++ " - " ++ text)
            (some status) (some (Json.obj [])))) ∧
    (∀ msg, (make_request c st now ao (ReqOutcome.transportError msg)).1 =
        Except.error (PyError.apiError ("Connection error: " ++ msg) none none)) := by
  rcases hga : get_auth_headers c st now ao with ⟨r, st1, n⟩
  cases r with
  | error e => rw [hga] at hok; simp [isOkResult] at hok
  | ok hd =>
    refine ⟨?_, ?_, ?_⟩
    · intro status text hasContent body h
      simp [make_request, hga, h]
    · intro status text hasContent h
      simp [make_request, hga, h]
    · intro msg
      simp [make_request, hga]

/-- Concrete C2 run: a 500 response with unparseable body raises the API
error with status 500 and empty parsed body; a transport failure raises the
API error with no status. -/
theorem dispatcher_error_translation_witness :
    (make_request credEx freshClient 0 (AuthOutcome.response 200 "" (some "tok"))
        (ReqOutcome.response 500 "boom" true none)).1 =
      Except.error (PyError.apiError
        ("API request failed: " ++ toString 500 ++ " - " ++ "boom")
        (some 500) (some (Json.obj []))) ∧
    (make_request credEx freshClient 0 (AuthOutcome.response 200 "" (some "tok"))
        (ReqOutcome.transportError "timeout")).1 =
      Except.error (PyError.apiError ("Connection error: " ++ "timeout") none none) := by
  have h := dispatcher_error_translation credEx freshClient 0
    (AuthOutcome.response 200 "" (some "tok")) (by decide)
  exact ⟨h.2.1 500 "boom" true (by decide), h.2.2 "timeout"⟩

/-- Claim C3: every failing authentication attempt (HTTP error status or
transport error) raises `SiigoAuthError` carrying, for an HTTP error, the
status code and response text; it issues exactly one auth call (no retry)
and returns with the cached token/expiry pair exactly as before the attempt. -/
theorem authenticate_failure_atomic (c : Credentials) (st : ClientState) (now : Int) :
    (∀ status text tok, 400 ≤ status → needs_token_refresh st now = true →
        get_auth_headers c st now (AuthOutcome.response status text tok) =
          (Except.error (PyError.authError
            ("Authentication failed: " ++ toString status ++ " - " ++ text)), st, 1)) ∧
    (∀ msg, needs_token_refresh st now = true →
        get_auth_headers c st now (AuthOutcome.transportError msg) =
          (Except.error (PyError.authError ("Connection error: " ++ msg)), st, 1)) := by
  constructor
  · intro status text tok h hr
    simp [get_auth_headers, hr, authenticate, h]
  · intro msg hr
    simp [get_auth_headers, hr, authenticate]

/-- Concrete C3 run: a 401 on a fresh client raises the auth error carrying
status 401 and the response text, and the token cache remains empty. -/
theorem authenticate_failure_atomic_witness :
    get_auth_headers credEx freshClient 0 (AuthOutcome.response 401 "Unauthorized" none) =
      (Except.error (PyError.authError
        ("Authentication failed: " ++ toString 401 ++ " - " ++ "Unauthorized")),
       freshClient, 1) := by
  exact (authenticate_failure_atomic credEx freshClient 0).1 401 "Unauthorized" none
    (by decide) (by decide)

/-- Claim C10: an auth success whose JSON body lacks `access_token` caches
`None` as the token with expiry 24 hours ahead without raising; the headers
from that call carry the literal `Bearer None`; and any headers call with a
falsy cached token (`None` or the empty string) re-authenticates regardless
of the cached expiry. -/
theorem falsy_token_reauth (c : Credentials) (now : Int) (status : Nat)
    (text : String) (h : status < 400) :
    authenticate now (AuthOutcome.response status text none) =
      Except.ok { access_token := none, token_expiry := some (now + 86400) } ∧
    get_auth_headers c freshClient now (AuthOutcome.response status text none) =
      (Except.ok { authorization := "Bearer None",
                   contentType := "application/json",
                   partnerId := c.application_name },
       { access_token := none, token_expiry := some (now + 86400) }, 1) ∧
    (∀ st2 now2, st2.access_token = none → needs_token_refresh st2 now2 = true) ∧
    (∀ st2 now2, st2.access_token = some "" → needs_token_refresh st2 now2 = true) := by
  have hauth : authenticate now (AuthOutcome.response status text none) =
      Except.ok { access_token := none, token_expiry := some (now + 86400) } := by
    simp only [authenticate]
    rw [if_neg (by omega)]
  refine ⟨hauth, ?_, ?_, ?_⟩
  · have hfresh : needs_token_refresh freshClient now = true := by
      simp [needs_token_refresh, freshClient, pyFalsyStr]
    simp [get_auth_headers, hfresh, hauth, mkHeaders, pyStrOpt]
  · intro st2 now2 h2
    simp [needs_token_refresh, pyFalsyStr, h2]
  · intro st2 now2 h2
    simp [needs_token_refresh, pyFalsyStr, h2]

/-- Concrete C10 run at status 200, time 0. -/
theorem falsy_token_reauth_witness :
    get_auth_headers credEx freshClient 0 (AuthOutcome.response 200 "ok" none) =
      (Except.ok { authorization := "Bearer None",
                   contentType := "application/json",
                   partnerId := credEx.application_name },
       { access_token := none, token_expiry := some (0 + 86400) }, 1) ∧
    needs_token_refresh { access_token := none, token_expiry := some (0 + 86400) } 0 = true := by
  have h := falsy_token_reauth credEx 0 200 "ok" (by decide)
  exact ⟨h.2.1, h.2.2.1 _ 0 rfl⟩

/-- Claim C4: `emit_electronic_invoice` first normalizes its inputs (all four
strings trimmed, the plate additionally uppercased) and, when any of plate,
id number, full name or email is empty after normalization or the amount is
not strictly positive, fails with one of the five validation `ValueError`s
before any network call is made (the call log is empty). -/
theorem emit_validation_guard (cfg : SiigoConfig) (today : String)
    (create : Json → Except PyError Json) (mail : Json → String → Except PyError Json)
    (placa id_number full_name email : String) (total_amount_cop : Int)
    (h : (pyUpper (pyStrip placa)) = "" ∨ (pyStrip id_number) = "" ∨ (pyStrip full_name) = ""
         ∨ (pyStrip email) = "" ∨ total_amount_cop ≤ 0) :
    ∃ msg, msg ∈ ["Factura electrónica requiere placa del vehículo",
                  "Factura electrónica requiere NIT o cédula",
                  "Factura electrónica requiere nombre o razón social",
                  "Factura electrónica requiere correo electrónico",
                  "Monto total inválido para facturación"] ∧
      emit_electronic_invoice cfg today create mail placa id_number full_name email
        total_amount_cop = (Except.error (PyError.valueError msg), []) := by
  by_cases h1 : (pyUpper (pyStrip placa)) = ""
  · refine ⟨"Factura electrónica requiere placa del vehículo", by simp, ?_⟩
    simp [emit_electronic_invoice, h1]
  by_cases h2 : (pyStrip id_number) = ""
  · refine ⟨"Factura electrónica requiere NIT o cédula", by simp, ?_⟩
    simp [emit_electronic_invoice, h1, h2]
  by_cases h3 : (pyStrip full_name) = ""
  · refine ⟨"Factura electrónica requiere nombre o razón social", by simp, ?_⟩
    simp [emit_electronic_invoice, h1, h2, h3]
  by_cases h4 : (pyStrip email) = ""
  · refine ⟨"Factura electrónica requiere correo electrónico", by simp, ?_⟩
    simp [emit_electronic_invoice, h1, h2, h3, h4]
  by_cases h5 : total_amount_cop ≤ 0
  · refine ⟨"Monto total inválido para facturación", by simp, ?_⟩
    simp [emit_electronic_invoice, h1, h2, h3, h4, h5]
  · rcases h with h | h | h | h | h <;> contradiction

/-- Concrete C4 run: plate " abc123 " normalizes fine but amount 0 is
rejected with a validation error and an empty call log. -/
theorem emit_validation_guard_witness :
    ∃ msg, msg ∈ ["Factura electrónica requiere placa del vehículo",
                  "Factura electrónica requiere NIT o cédula",
                  "Factura electrónica requiere nombre o razón social",
                  "Factura electrónica requiere correo electrónico",
                  "Monto total inválido para facturación"] ∧
      emit_electronic_invoice cfgEx "2026-01-01" createOk mailOk
        " abc123 " "900123" "Acme SAS" "cliente@mail.co" 0 =
        (Except.error (PyError.valueError msg), []) :=
  emit_validation_guard cfgEx "2026-01-01" createOk mailOk
    " abc123 " "900123" "Acme SAS" "cliente@mail.co" 0
    (Or.inr (Or.inr (Or.inr (Or.inr (by decide)))))

/-- Claim C5: every invoice payload that `emit_electronic_invoice` submits to
create is exactly `buildInvoiceData` on the normalized inputs: document id is
the configured document type, date is the supplied today string, customer
identification is the normalized id number with branch office 0, the single
line item has price equal to the total amount with quantity 1 and discount 0,
and the single payment has value equal to the total amount with due date
equal to the invoice date. -/
theorem emit_payload_roundtrip (cfg : SiigoConfig) (today : String)
    (create : Json → Except PyError Json) (mail : Json → String → Except PyError Json)
    (placa id_number full_name email : String) (total_amount_cop : Int) (d : Json)
    (hd : NetCall.createCall d ∈ (emit_electronic_invoice cfg today create mail
            placa id_number full_name email total_amount_cop).2) :
    d = buildInvoiceData cfg today (pyUpper (pyStrip placa)) (pyStrip id_number) (pyStrip full_name)
          total_amount_cop ∧
    jsonLookup d "document" = some (Json.obj [("id", optIntJson cfg.document_type_id)]) ∧
    jsonLookup d "date" = some (Json.str today) ∧
    jsonLookup d "customer" = some (Json.obj [("identification", Json.str (pyStrip id_number)),
        ("branch_office", Json.int 0)]) ∧
    (∃ item, jsonLookup d "items" = some (Json.arr [item]) ∧
        jsonLookup item "quantity" = some (Json.int 1) ∧
        jsonLookup item "price" = some (Json.int total_amount_cop) ∧
        jsonLookup item "discount" = some (Json.int 0)) ∧
    (∃ pay, jsonLookup d "payments" = some (Json.arr [pay]) ∧
        jsonLookup pay "id" = some (optIntJson cfg.payment_type_id) ∧
        jsonLookup pay "value" = some (Json.int total_amount_cop) ∧
        jsonLookup pay "due_date" = some (Json.str today)) := by
  have hmain : d = buildInvoiceData cfg today (pyUpper (pyStrip placa)) (pyStrip id_number)
      (pyStrip full_name) total_amount_cop := by
    by_cases h1 : (pyUpper (pyStrip placa)) = ""
    · simp [emit_electronic_invoice, h1] at hd
    by_cases h2 : (pyStrip id_number) = ""
    · simp [emit_electronic_invoice, h1, h2] at hd
    by_cases h3 : (pyStrip full_name) = ""
    · simp [emit_electronic_invoice, h1, h2, h3] at hd
    by_cases h4 : (pyStrip email) = ""
    · simp [emit_electronic_invoice, h1, h2, h3, h4] at hd
    by_cases h5 : total_amount_cop ≤ 0
    · simp [emit_electronic_invoice, h1, h2, h3, h4, h5] at hd
    cases hv : validarConfig cfg with
    | error e => simp [emit_electronic_invoice, h1, h2, h3, h4, h5, hv] at hd
    | ok u =>
      cases hc : create (buildInvoiceData cfg today (pyUpper (pyStrip placa)) (pyStrip id_number)
          (pyStrip full_name) total_amount_cop) with
      | error e =>
        simp [emit_electronic_invoice, h1, h2, h3, h4, h5, hv, hc] at hd
        exact hd
      | ok result =>
        cases hl : jsonLookup result "id" with
        | some idv =>
          simp [emit_electronic_invoice, h1, h2, h3, h4, h5, hv, hc, hl] at hd
          exact hd
        | none =>
          simp [emit_electronic_invoice, h1, h2, h3, h4, h5, hv, hc, hl] at hd
          exact hd
  subst hmain
  exact ⟨rfl, rfl, rfl, rfl, ⟨_, rfl, rfl, rfl, rfl⟩, ⟨_, rfl, rfl, rfl, rfl⟩⟩

/-- Concrete C5 run: the payload created for plate " abc123 ", id "900123",
name "Acme SAS", amount 12000 on a fully configured client carries the
expected date and payment fields. -/
theorem emit_payload_roundtrip_witness :
    jsonLookup (buildInvoiceData cfgEx "2026-01-01" (pyUpper (pyStrip " abc123 "))
        (pyStrip "900123") (pyStrip "Acme SAS") 12000) "date" = some (Json.str "2026-01-01") ∧
    (∃ pay, jsonLookup (buildInvoiceData cfgEx "2026-01-01" (pyUpper (pyStrip " abc123 "))
        (pyStrip "900123") (pyStrip "Acme SAS") 12000) "payments" = some (Json.arr [pay]) ∧
        jsonLookup pay "id" = some (optIntJson cfgEx.payment_type_id) ∧
        jsonLookup pay "value" = some (Json.int 12000) ∧
        jsonLookup pay "due_date" = some (Json.str "2026-01-01")) := by
  have hlog : (emit_electronic_invoice cfgEx "2026-01-01" createOk mailOk " abc123 "
      "900123" "Acme SAS" "cliente@mail.co" 12000).2 =
      [NetCall.createCall (buildInvoiceData cfgEx "2026-01-01" (pyUpper (pyStrip " abc123 "))
        (pyStrip "900123") (pyStrip "Acme SAS") 12000),
       NetCall.mailCall (Json.str "inv-1") (pyStrip "cliente@mail.co")] := rfl
  have hd : NetCall.createCall (buildInvoiceData cfgEx "2026-01-01" (pyUpper (pyStrip " abc123 "))
      (pyStrip "900123") (pyStrip "Acme SAS") 12000) ∈
      (emit_electronic_invoice cfgEx "2026-01-01" createOk mailOk " abc123 "
        "900123" "Acme SAS" "cliente@mail.co" 12000).2 := by
    rw [hlog]
    exact List.Mem.head _
  have h := emit_payload_roundtrip cfgEx "2026-01-01" createOk mailOk
    " abc123 " "900123" "Acme SAS" "cliente@mail.co" 12000
    (buildInvoiceData cfgEx "2026-01-01" (pyUpper (pyStrip " abc123 ")) (pyStrip "900123")
      (pyStrip "Acme SAS") 12000) hd
  exact ⟨h.2.2.1, h.2.2.2.2.2⟩

/-- Claim C6: when string/amount validation passes but a required reference
ID (document type, seller or payment type) is unset (falsy), the call fails
before any network call with a `ValueError` whose message lists exactly the
missing keys; the tax reference is never among the checked keys (its value
does not affect `missingConfigKeys`) and its absence merely yields an empty
taxes list on the line item. -/
theorem emit_missing_config_error (cfg : SiigoConfig) (today : String)
    (create : Json → Except PyError Json) (mail : Json → String → Except PyError Json)
    (placa id_number full_name email : String) (total_amount_cop : Int)
    (hp : (pyUpper (pyStrip placa)) ≠ "") (hi : (pyStrip id_number) ≠ "")
    (hf : (pyStrip full_name) ≠ "") (he : (pyStrip email) ≠ "")
    (ha : 0 < total_amount_cop) (hm : missingConfigKeys cfg ≠ []) :
    emit_electronic_invoice cfg today create mail placa id_number full_name email
        total_amount_cop =
      (Except.error (PyError.valueError (configErrorMsg (missingConfigKeys cfg))), []) ∧
    (∀ d s p t t2, missingConfigKeys ⟨d, s, p, t⟩ = missingConfigKeys ⟨d, s, p, t2⟩) ∧
    (∀ (cfg2 : SiigoConfig) today2 pl idn fn amt, pyFalsyInt cfg2.tax_id = true →
        ∃ item, jsonLookup (buildInvoiceData cfg2 today2 pl idn fn amt) "items" =
            some (Json.arr [item]) ∧
          jsonLookup item "taxes" = some (Json.arr [])) := by
  have h5 : ¬ total_amount_cop ≤ 0 := by omega
  refine ⟨?_, ?_, ?_⟩
  · simp [emit_electronic_invoice, hp, hi, hf, he, h5, validarConfig, hm]
  · intro d s p t t2
    rfl
  · intro cfg2 today2 pl idn fn amt h
    refine ⟨_, rfl, ?_⟩
    simp [jsonLookup, lookupPairs, h]

/-- Concrete C6 run: with `seller_id` unset and `payment_type_id` falsy the
call fails before any network call, and the message lists exactly those two
keys. -/
theorem emit_missing_config_error_witness :
    emit_electronic_invoice cfgMissing "2026-01-01" createOk mailOk
        " abc123 " "900123" "Acme SAS" "cliente@mail.co" 12000 =
      (Except.error (PyError.valueError (configErrorMsg (missingConfigKeys cfgMissing))), []) ∧
    missingConfigKeys cfgMissing = ["seller_id", "payment_type_id"] ∧
    configErrorMsg (missingConfigKeys cfgMissing) =
      "Faltan IDs de configuración: [" ++ pyQuote ++ "seller_id" ++ pyQuote ++ ", "
        ++ pyQuote ++ "payment_type_id" ++ pyQuote
        ++ "]. Ejecuta get_siigo_ids() para obtenerlos." :=
  ⟨(emit_missing_config_error cfgMissing "2026-01-01" createOk mailOk
      " abc123 " "900123" "Acme SAS" "cliente@mail.co" 12000
      (by decide) (by decide) (by decide) (by decide) (by decide) (by decide)).1,
   by decide, by decide⟩

/-- Claim C7: when invoice creation succeeds, the call returns the created
record unchanged for every mail oracle — in particular for one that raises —
so no email failure is ever surfaced to the caller. -/
theorem emit_email_best_effort (cfg : SiigoConfig) (today : String)
    (create : Json → Except PyError Json) (mail : Json → String → Except PyError Json)
    (placa id_number full_name email : String) (total_amount_cop : Int) (result : Json)
    (hp : (pyUpper (pyStrip placa)) ≠ "") (hi : (pyStrip id_number) ≠ "")
    (hf : (pyStrip full_name) ≠ "") (he : (pyStrip email) ≠ "")
    (ha : 0 < total_amount_cop) (hcfg : missingConfigKeys cfg = [])
    (hcreate : create (buildInvoiceData cfg today (pyUpper (pyStrip placa))
        (pyStrip id_number) (pyStrip full_name) total_amount_cop) = Except.ok result) :
    (emit_electronic_invoice cfg today create mail placa id_number full_name email
        total_amount_cop).1 = Except.ok result := by
  have h5 : ¬ total_amount_cop ≤ 0 := by omega
  cases hl : jsonLookup result "id" with
  | some idv =>
    simp [emit_electronic_invoice, hp, hi, hf, he, h5, validarConfig, hcfg, hcreate, hl]
  | none =>
    simp [emit_electronic_invoice, hp, hi, hf, he, h5, validarConfig, hcfg, hcreate, hl]

/-- Concrete C7 run: creation succeeds and the mail oracle always raises,
yet the call returns the created record. -/
theorem emit_email_best_effort_witness :
    (emit_electronic_invoice cfgEx "2026-01-01" createOk mailFail " abc123 " "900123"
        "Acme SAS" "cliente@mail.co" 12000).1 =
      Except.ok (Json.obj [("id", Json.str "inv-1")]) :=
  emit_email_best_effort cfgEx "2026-01-01" createOk mailFail " abc123 " "900123"
    "Acme SAS" "cliente@mail.co" 12000 (Json.obj [("id", Json.str "inv-1")])
    (by decide) (by decide) (by decide) (by decide) (by decide) (by decide) rfl

/-- Claim C8 counterexample: `get_invoices` does modify a parameter — called
with `page_size = 200`, the outgoing query carries `page_size = 100`, not the
supplied value. -/
theorem typed_ops_clamp_counterexample :
    requestParam (get_invoices_request 1 200 none none none none none none none
        none none) "page_size" = some (Json.int 100) ∧
    requestParam (get_invoices_request 1 200 none none none none none none none
        none none) "page_size" ≠ some (Json.int 200) := by
  refine ⟨rfl, ?_⟩
  intro h
  rw [show requestParam (get_invoices_request 1 200 none none none none none none
      none none none) "page_size" = some (Json.int 100) from rfl] at h
  simp at h

/-- Lookup skips an optional string-filter segment built for a different key. -/
theorem lookupPairs_optStrParam_skip (k : String) (v : Option String)
    (rest : List (String × Json)) (key : String) (h : ¬ k = key) :
    lookupPairs (optStrParam k v ++ rest) key = lookupPairs rest key := by
  cases v with
  | none => rfl
  | some s =>
    by_cases hs : s = ""
    · simp [optStrParam, hs]
    · simp [optStrParam, hs, lookupPairs, h]

/-- Lookup skips an optional int-filter segment built for a different key. -/
theorem lookupPairs_optIntParam_skip (k : String) (v : Option Int)
    (rest : List (String × Json)) (key : String) (h : ¬ k = key) :
    lookupPairs (optIntParam k v ++ rest) key = lookupPairs rest key := by
  cases v with
  | none => rfl
  | some n =>
    by_cases hn : n = 0
    · simp [optIntParam, hn]
    · simp [optIntParam, hn, lookupPairs, h]

/-- Lookup on an optional string-filter segment for its own key. -/
theorem lookupPairs_optStrParam_hit (k : String) (v : Option String)
    (rest : List (String × Json)) :
    lookupPairs (optStrParam k v ++ rest) k =
      (match v with
       | none => lookupPairs rest k
       | some s => if s = "" then lookupPairs rest k else some (Json.str s)) := by
  cases v with
  | none => rfl
  | some s =>
    by_cases hs : s = ""
    · simp [optStrParam, hs]
    · simp [optStrParam, hs, lookupPairs]

/-- A lone optional string-filter segment holds no other key. -/
theorem lookupPairs_optStrParam_other (k : String) (v : Option String)
    (key : String) (h : ¬ k = key) :
    lookupPairs (optStrParam k v) key = none := by
  cases v with
  | none => rfl
  | some s =>
    by_cases hs : s = ""
    · simp [optStrParam, hs, lookupPairs]
    · simp [optStrParam, hs, lookupPairs, h]

/-- Claim C8 (amended): every typed operation returns exactly what the
dispatcher returns for its request; optional filters are forwarded exactly
when truthy (non-empty string / non-zero int / non-empty list); `get_invoices`
forwards `page` unmodified but caps `page_size` at 100 (the one parameter
modification); `get_customers` forwards both pagination parameters
unmodified. -/
theorem typed_ops_transparency_amended :
    (∀ (dispatch : Request → Except PyError Json) r, runOp dispatch r = dispatch r) ∧
    (∀ page page_size cs ce ds de us ue ci cbo nm,
        requestParam (get_invoices_request page page_size cs ce ds de us ue ci cbo nm)
            "page" = some (Json.int page) ∧
        requestParam (get_invoices_request page page_size cs ce ds de us ue ci cbo nm)
            "page_size" = some (Json.int (min page_size 100))) ∧
    (∀ page page_size cs ce ds de us ue cbo nm ident,
        requestParam (get_invoices_request page page_size cs ce ds de us ue ident cbo nm)
            "customer_identification" =
          (match ident with
           | none => none
           | some s => if s = "" then none else some (Json.str s))) ∧
    (∀ page page_size ident,
        requestParam (get_customers_request page page_size ident) "identification" =
          (match ident with
           | none => none
           | some s => if s = "" then none else some (Json.str s)) ∧
        requestParam (get_customers_request page page_size ident) "page" =
          some (Json.int page) ∧
        requestParam (get_customers_request page page_size ident) "page_size" =
          some (Json.int page_size)) ∧
    (∀ invoice_id email copy_to,
        jsonLookup ((send_invoice_email_request invoice_id email copy_to).data.getD
            Json.null) "copy_to" =
          (match copy_to with
           | none => none
           | some l => if l = [] then none else some (Json.arr (l.map Json.str)))) := by
  refine ⟨fun _ _ => rfl, ?_, ?_, ?_, ?_⟩
  · intro page page_size cs ce ds de us ue ci cbo nm
    exact ⟨rfl, rfl⟩
  · intro page page_size cs ce ds de us ue cbo nm ident
    simp only [get_invoices_request, requestParam, jsonLookup, List.cons_append,
      List.nil_append, List.append_assoc]
    rw [lookupPairs, if_neg (by decide), lookupPairs, if_neg (by decide),
      lookupPairs_optStrParam_skip _ _ _ _ (by decide),
      lookupPairs_optStrParam_skip _ _ _ _ (by decide),
      lookupPairs_optStrParam_skip _ _ _ _ (by decide),
      lookupPairs_optStrParam_skip _ _ _ _ (by decide),
      lookupPairs_optStrParam_skip _ _ _ _ (by decide),
      lookupPairs_optStrParam_skip _ _ _ _ (by decide),
      lookupPairs_optStrParam_hit]
    have htail : lookupPairs (optIntParam "customer_branch_office" cbo ++
        optStrParam "name" nm) "customer_identification" = none := by
      rw [lookupPairs_optIntParam_skip _ _ _ _ (by decide),
        lookupPairs_optStrParam_other _ _ _ (by decide)]
    rw [htail]
  · intro page page_size ident
    refine ⟨?_, rfl, rfl⟩
    simp only [get_customers_request, requestParam, jsonLookup, List.cons_append,
      List.nil_append, List.append_assoc]
    rw [lookupPairs, if_neg (by decide), lookupPairs, if_neg (by decide)]
    rw [show (optStrParam "identification" ident : List (String × Json)) =
        optStrParam "identification" ident ++ [] from (List.append_nil _).symm,
      lookupPairs_optStrParam_hit]
    cases ident <;> rfl
  · intro invoice_id email copy_to
    cases copy_to with
    | none => rfl
    | some l =>
      by_cases hl : l = [] <;>
        simp [send_invoice_email_request, jsonLookup, lookupPairs, hl]

/-- Claim C9 counterexample: a transport-level failure of the invoice PDF
fetch (after a successful headers step) propagates the untranslated
`requests` exception, which is neither of the two top-level error kinds. -/
theorem pdf_transport_counterexample :
    (get_invoice_pdf credEx freshClient 0 (AuthOutcome.response 200 "" (some "tok"))
        (PdfOutcome.transportError "connection refused")).1 =
      Except.error (PyError.requestsError "connection refused") ∧
    isTwoKinds (PyError.requestsError "connection refused") = false := ⟨rfl, rfl⟩

/-- Every `_authenticate` failure is a `SiigoAuthError`. -/
theorem authenticate_error_kind (now : Int) (ao : AuthOutcome) (e : PyError)
    (h : authenticate now ao = Except.error e) : ∃ m, e = PyError.authError m := by
  cases ao with
  | response status text tok =>
    by_cases hs : 400 ≤ status
    · simp [authenticate, hs] at h
      exact ⟨_, h.symm⟩
    · simp [authenticate, hs] at h
  | transportError msg =>
    simp [authenticate] at h
    exact ⟨_, h.symm⟩

/-- Every `_get_auth_headers` failure is a `SiigoAuthError`. -/
theorem get_auth_headers_error_kind (c : Credentials) (st : ClientState)
    (now : Int) (ao : AuthOutcome) (e : PyError) (st1 : ClientState) (n : Nat)
    (h : get_auth_headers c st now ao = (Except.error e, st1, n)) :
    ∃ m, e = PyError.authError m := by
  by_cases hr : needs_token_refresh st now
  · cases ha : authenticate now ao with
    | error e2 =>
      simp [get_auth_headers, hr, ha] at h
      obtain ⟨m, hm⟩ := authenticate_error_kind now ao e2 ha
      exact ⟨m, by rw [← h.1, hm]⟩
    | ok st2 => simp [get_auth_headers, hr, ha] at h
  · simp [get_auth_headers, hr] at h

/-- Claim C9 (amended): every failure of a call routed through the dispatcher
raises one of the two top-level kinds (`SiigoAuthError` when the auth step
failed, `SiigoAPIError` otherwise), and so does an HTTP-error-status failure
of the invoice PDF fetch; but a transport-level failure of the PDF fetch
after a successful headers step propagates the underlying library's
exception untranslated. -/
theorem error_kinds_amended :
    (∀ c st now ao ro e, (make_request c st now ao ro).1 = Except.error e →
        isTwoKinds e = true) ∧
    (∀ c st now ao status text content e,
        (get_invoice_pdf c st now ao (PdfOutcome.response status text content)).1 =
          Except.error e → isTwoKinds e = true) ∧
    (∀ c st now ao msg, isOkResult (get_auth_headers c st now ao).1 = true →
        (get_invoice_pdf c st now ao (PdfOutcome.transportError msg)).1 =
          Except.error (PyError.requestsError msg)) := by
  refine ⟨?_, ?_, ?_⟩
  · intro c st now ao ro e h
    rcases hga : get_auth_headers c st now ao with ⟨r, st1, n⟩
    cases r with
    | error e2 =>
      obtain ⟨m, hm⟩ := get_auth_headers_error_kind c st now ao e2 st1 n hga
      simp [make_request, hga] at h
      rw [← h, hm]
      rfl
    | ok hd =>
      cases ro with
      | response status text hasContent body =>
        by_cases hs : 400 ≤ status
        · simp [make_request, hga, hs] at h
          rw [← h]
          rfl
        · cases hasContent with
          | true =>
            cases body with
            | some j => simp [make_request, hga, hs] at h
            | none =>
              simp [make_request, hga, hs] at h
              rw [← h]
              rfl
          | false => simp [make_request, hga, hs] at h
      | transportError msg =>
        simp [make_request, hga] at h
        rw [← h]
        rfl
  · intro c st now ao status text content e h
    rcases hga : get_auth_headers c st now ao with ⟨r, st1, n⟩
    cases r with
    | error e2 =>
      obtain ⟨m, hm⟩ := get_auth_headers_error_kind c st now ao e2 st1 n hga
      simp [get_invoice_pdf, hga] at h
      rw [← h, hm]
      rfl
    | ok hd =>
      by_cases hs : 400 ≤ status
      · simp [get_invoice_pdf, hga, hs] at h
        rw [← h]
        rfl
      · simp [get_invoice_pdf, hga, hs] at h
  · intro c st now ao msg hok
    rcases hga : get_auth_headers c st now ao with ⟨r, st1, n⟩
    cases r with
    | error e2 => rw [hga] at hok; simp [isOkResult] at hok
    | ok hd => simp [get_invoice_pdf, hga]

/-- Concrete C9 runs: a 404 on the dispatcher and a 404 on the PDF fetch are
both of the two kinds; the PDF transport failure from the counterexample is
checked there. -/
theorem error_kinds_amended_witness :
    isTwoKinds (PyError.apiError
      ("API request failed: " ++ toString 404 ++ " - " ++ "nf")
      (some 404) (some (Json.obj []))) = true ∧
    isTwoKinds (PyError.apiError
      ("Failed to get invoice PDF: " ++ toString 404) (some 404) none) = true := by
  constructor
  · exact error_kinds_amended.1 credEx freshClient 0
      (AuthOutcome.response 200 "" (some "tok"))
      (ReqOutcome.response 404 "nf" true none) _ rfl
  · exact error_kinds_amended.2.1 credEx freshClient 0
      (AuthOutcome.response 200 "" (some "tok")) 404 "nf" "" _ rfl
